import Mathlib

/-
Verification of the FilmService movie-catalog service.

The development shallowly embeds the data model and the operations of the
service: the persistence layer (crud.py), the metadata-provider client
(omdb_api.py), the create-with-enrichment endpoint and the startup seeding
routine (main.py).  The relational store is modelled as a list of movie
records plus a next-surrogate-id counter; provider calls and other external
effects are supplied as explicit oracle arguments.
-/

namespace FilmService

/-- Python truthiness of an optional string value: `None` and the empty
string are falsy, every other string is truthy.  Mirrors the checks
`if not incoming.get("year")`, `if year:` and `if item.get("Title")`
in the source. -/
def truthy : Option String → Bool
  | none => false
  | some s => !s.isEmpty

/-- Python `a or b` on optional string values: yields `a` when `a` is
truthy, otherwise `b` unchanged.  Mirrors
`incoming.get("year") or omdb.get("year")` in main.py. -/
def pyOr (a b : Option String) : Option String :=
  if truthy a then a else b

/-- A stored movie row (models.py): surrogate integer id, required title,
optional year (kept as a string) and optional free-text synopsis. -/
structure Movie where
  id : Nat
  title : String
  year : Option String
  description : Option String
deriving DecidableEq, Repr

/-- The movie table of the relational store: the rows in insertion order
plus the next id the storage engine will assign. -/
structure DB where
  movies : List Movie
  nextId : Nat
deriving DecidableEq, Repr

/-- crud.create_movie: inserts a new row built from the creation payload,
commits, and returns the row with its freshly assigned id.  No duplicate
check happens here. -/
def create_movie (db : DB) (title : String) (year description : Option String) :
    DB × Movie :=
  let m : Movie := ⟨db.nextId, title, year, description⟩
  (⟨db.movies ++ [m], db.nextId + 1⟩, m)

/-- crud.get_movie: first row whose id matches, or `none`. -/
def get_movie (db : DB) (movie_id : Nat) : Option Movie :=
  db.movies.find? (fun m => m.id == movie_id)

/-- crud.get_movies: rows after skipping `skip`, at most `limit` of them
(`offset(skip).limit(limit)`). -/
def get_movies (db : DB) (skip limit : Nat) : List Movie :=
  (db.movies.drop skip).take limit

/-- schemas.MovieUpdate with pydantic `exclude_unset` semantics: each field
is `none` when the request omitted it, `some v` when the request supplied
the value `v`.  For year and description the supplied value is itself
optional (an explicit null is a legal supplied value); a supplied title
is a string (an explicit null title would be rejected by the store's
non-null column constraint, outside this model). -/
structure MovieUpdate where
  title : Option String
  year : Option (Option String)
  description : Option (Option String)
deriving DecidableEq, Repr

/-- The setattr loop of crud.update_movie: overwrite exactly the fields
present in the payload, keep the rest (id is never in the payload). -/
def applyUpdate (m : Movie) (u : MovieUpdate) : Movie :=
  { m with
    title := u.title.getD m.title
    year := u.year.getD m.year
    description := u.description.getD m.description }

/-- crud.update_movie: look the row up by id; absent gives `none` and the
store untouched; otherwise apply exactly the payload's present fields to
that row, commit, and return the updated row. -/
def update_movie (db : DB) (movie_id : Nat) (u : MovieUpdate) :
    DB × Option Movie :=
  match get_movie db movie_id with
  | none => (db, none)
  | some m =>
    let m2 := applyUpdate m u
    (⟨db.movies.map (fun x => if x.id == movie_id then m2 else x), db.nextId⟩,
      some m2)

/-- The row predicate of crud.get_by_title_year: title must match exactly,
and when the year argument is truthy (provided and non-empty) the year
must match exactly too; a falsy year argument filters on title alone. -/
def titleYearPred (title : String) (year : Option String) (m : Movie) : Bool :=
  if truthy year then m.title == title && m.year == year
  else m.title == title

/-- crud.get_by_title_year: first row matching `titleYearPred`, or `none`
when nothing matches (absence is a normal return value, never an error). -/
def get_by_title_year (db : DB) (title : String) (year : Option String) :
    Option Movie :=
  db.movies.find? (titleYearPred title year)

/-- crud.count_movies: total number of rows. -/
def count_movies (db : DB) : Nat :=
  db.movies.length

/-- crud.ensure_movie: natural-key upsert.  If get_by_title_year finds a
row, return it and leave the store untouched; otherwise create a row from
the given fields. -/
def ensure_movie (db : DB) (title : String) (year description : Option String) :
    DB × Movie :=
  match get_by_title_year db title year with
  | some existing => (db, existing)
  | none => create_movie db title year description

/-- The record shape produced by a successful omdb_api.fetch_movie_from_omdb
call: provider title, year and plot mapped to title, year, description.
A success response always carries a title string; year and plot may be
absent. -/
structure OmdbData where
  title : String
  year : Option String
  description : Option String
deriving DecidableEq, Repr

/-- schemas.MovieCreate: required title, optional year and description. -/
structure MovieCreate where
  title : String
  year : Option String
  description : Option String
deriving DecidableEq, Repr

/-- The enrichment step of main.create_movie_endpoint (the body guarded by
`if not incoming.get("year") or not incoming.get("description")`): when
year or description is falsy, look the title up; if data comes back, each
field becomes `payload-value or provider-value` in Python's `or` sense.
Returns the final (year, description) pair. -/
def enrich (lookup : String → Option OmdbData) (p : MovieCreate) :
    Option String × Option String :=
  if !truthy p.year || !truthy p.description then
    match lookup p.title with
    | some o => (pyOr p.year o.year, pyOr p.description o.description)
    | none => (p.year, p.description)
  else (p.year, p.description)

/-- Outcome of the create endpoint: 201 with the created row, or 409. -/
inductive CreateResponse where
  | created (m : Movie)
  | conflict
deriving DecidableEq, Repr

/-- Observable outcome of one call to the create endpoint: the resulting
store, the HTTP response, and whether the provider lookup was invoked. -/
structure CreateOutcome where
  db : DB
  response : CreateResponse
  lookupCalled : Bool
deriving DecidableEq, Repr

/-- main.create_movie_endpoint: enrich the payload when year or description
is falsy, then pre-check the natural key on the final title and year; a
match raises 409 and writes nothing, otherwise the row is created and
returned with 201.  The provider lookup is a pure oracle argument. -/
def create_movie_endpoint (lookup : String → Option OmdbData) (db : DB)
    (p : MovieCreate) : CreateOutcome :=
  let called := !truthy p.year || !truthy p.description
  let yd := enrich lookup p
  match get_by_title_year db p.title yd.1 with
  | some _ => ⟨db, .conflict, called⟩
  | none =>
    let r := create_movie db p.title yd.1 yd.2
    ⟨r.1, .created r.2, called⟩

/-- Outcome of the list endpoint: 200 with rows, or a 422 validation
rejection produced by the framework boundary. -/
inductive ListResponse where
  | ok (movies : List Movie)
  | validationError
deriving DecidableEq, Repr

/-- main.list_movies_endpoint including its framework boundary: the limit
query parameter is declared `Query(50, le=100)`, so an absent limit
defaults to 50 and a supplied limit is validated to be at most 100 —
a larger value is rejected with 422 before the handler runs (FastAPI
`le` validates, it does not clamp).  Within bounds the handler returns
get_movies.  Negative supplied limits are outside the modelled range of
interest and are truncated to zero here. -/
def list_movies_endpoint (db : DB) (skip : Nat) (limit : Option Int) :
    ListResponse :=
  match limit with
  | none => .ok (get_movies db skip 50)
  | some l => if l ≤ 100 then .ok (get_movies db skip l.toNat) else .validationError

/-- One entry of the provider's keyword-search result list; its Title key
may be missing. -/
structure SearchItem where
  title : Option String
deriving DecidableEq, Repr

/-- A decoded keyword-search response body: the Response discriminator
string and the Search result list (missing Search decodes as []). -/
structure SearchResponse where
  responseField : String
  search : List SearchItem
deriving DecidableEq, Repr

/-- Transport-level failures (timeouts, connection errors, malformed
bodies) surfaced as exceptions by the underlying HTTP client. -/
abbrev Err := String

/-- omdb_api.fetch_monitor_movies: with an unconfigured key return [] at
once; otherwise perform the request — a transport failure propagates
uncaught — and on a Response == "True" body take the first `limit`
entries and keep the truthy titles; any other body gives [].  The wire
interaction is the `resp` oracle argument. -/
def fetch_monitor_movies (apiKey : String)
    (resp : Except Err SearchResponse) (limit : Nat) :
    Except Err (List String) :=
  if apiKey.isEmpty then .ok []
  else
    match resp with
    | .error e => .error e
    | .ok data =>
      if data.responseField == "True" then
        .ok ((data.search.take limit).filterMap
          (fun it => if truthy it.title then it.title else none))
      else .ok []

/-- Result of running the seeding routine's try-block: the store as left
by the committed writes, the exception that escaped the block (if any),
and how many provider calls were made. -/
structure SeedResult where
  db : DB
  err : Option Err
  providerCalls : Nat
deriving DecidableEq, Repr

/-- The per-title loop of main.seed_movies_if_less_than_10: look each title
up (the `lookup` oracle may raise), and when data comes back run
ensure_movie on the provider's fields (the `ensureErr` oracle says whether
the store raises on that call, before any write of that iteration).  Each
successful ensure_movie commits on its own, so the store reached before a
raise persists; the first raise aborts the loop. -/
def seedLoop (lookup : String → Except Err (Option OmdbData))
    (ensureErr : String → Option Err) : DB → List String → SeedResult
  | db, [] => ⟨db, none, 0⟩
  | db, t :: ts =>
    match lookup t with
    | .error e => ⟨db, some e, 1⟩
    | .ok none =>
      let r := seedLoop lookup ensureErr db ts
      ⟨r.db, r.err, r.providerCalls + 1⟩
    | .ok (some o) =>
      match ensureErr t with
      | some e => ⟨db, some e, 1⟩
      | none =>
        let r := seedLoop lookup ensureErr
          (ensure_movie db o.title o.year o.description).1 ts
        ⟨r.db, r.err, r.providerCalls + 1⟩

/-- The failure-free per-title loop: the store produced when every lookup
answers purely (`lookupV`) and no ensure_movie call raises.  Used to state
which records a partially failed run has committed. -/
def seedLoopOk (lookupV : String → Option OmdbData) : DB → List String → DB
  | db, [] => db
  | db, t :: ts =>
    match lookupV t with
    | none => seedLoopOk lookupV db ts
    | some o =>
      seedLoopOk lookupV (ensure_movie db o.title o.year o.description).1 ts

/-- The try-block of main.seed_movies_if_less_than_10: count the rows
(the count itself may raise, `countErr`); stop when the count is at least
10; otherwise run the keyword search (outcome `searchRes`, one provider
call) and then the per-title loop.  Returns the store, the escaping
exception if any, and the number of provider calls. -/
def seedRun (countErr : Option Err) (searchRes : Except Err (List String))
    (lookup : String → Except Err (Option OmdbData))
    (ensureErr : String → Option Err) (db : DB) : SeedResult :=
  match countErr with
  | some e => ⟨db, some e, 0⟩
  | none =>
    if 10 ≤ count_movies db then ⟨db, none, 0⟩
    else
      match searchRes with
      | .error e => ⟨db, some e, 1⟩
      | .ok titles =>
        let r := seedLoop lookup ensureErr db titles
        ⟨r.db, r.err, r.providerCalls + 1⟩

/-- main.seed_movies_if_less_than_10: the startup hook wraps the whole
try-block in `except Exception: log`, so every exception is swallowed and
the hook always returns normally with the store as the block left it. -/
def seed_movies_if_less_than_10 (countErr : Option Err)
    (searchRes : Except Err (List String))
    (lookup : String → Except Err (Option OmdbData))
    (ensureErr : String → Option Err) (db : DB) : DB :=
  (seedRun countErr searchRes lookup ensureErr db).db

/-- An empty store whose engine will assign id 1 first, as a fresh
relational store does. -/
def dbEmpty : DB := ⟨[], 1⟩

/-- A sample stored row. -/
def mDune : Movie := ⟨1, "Dune", some "2021", none⟩

/-- A store holding the single sample row. -/
def dbDune : DB := ⟨[mDune], 2⟩

/-- A store already holding ten rows. -/
def dbTen : DB := ⟨(List.range 10).map (fun n => ⟨n, "m", none, none⟩), 10⟩

/-- A provider oracle that answers every title lookup with fixed data. -/
def lookupDune : String → Option OmdbData :=
  fun _ => some ⟨"Dune", some "2021", some "plot"⟩

/-- Sample provider data for the seeding scenarios. -/
def oA : OmdbData := ⟨"Alpha", some "1999", some "plot"⟩

/-- A fallible lookup oracle: succeeds with data on "a", raises on "b",
answers a clean not-found on anything else. -/
def wLookup : String → Except Err (Option OmdbData) :=
  fun s => if s = "a" then .ok (some oA)
    else if s = "b" then .error "boom" else .ok none

/-- The pure values of `wLookup` on its non-raising titles. -/
def wLookupV : String → Option OmdbData :=
  fun s => if s = "a" then some oA else none

/-- The row freshly created by create_movie satisfies the natural-key
predicate it was created under. -/
lemma titleYearPred_self (t : String) (y d : Option String) (n : Nat) :
    titleYearPred t y ⟨n, t, y, d⟩ = true := by
  cases hy : truthy y <;> simp [titleYearPred, hy]

/-- After a create under a natural key that had no match, the natural-key
lookup finds exactly the created row. -/
lemma get_by_title_year_create (db : DB) (t : String) (y d : Option String)
    (h : get_by_title_year db t y = none) :
    get_by_title_year (create_movie db t y d).1 t y =
      some ⟨db.nextId, t, y, d⟩ := by
  unfold get_by_title_year create_movie
  unfold get_by_title_year at h
  rw [List.find?_append, h]
  simp [List.find?, titleYearPred_self]

/-- C5: get_by_title_year matches the title exactly and, when the year
argument is provided (non-empty), the year exactly as well; a falsy year
argument makes the match run on title alone, so a row with any year can
come back; absence of a match is the `none` result, characterised by no
stored row satisfying the predicate — never an error. -/
theorem get_by_title_year_match (db : DB) (t : String) (y : Option String) :
    (∀ m, get_by_title_year db t y = some m →
      m.title = t ∧ (truthy y = true → m.year = y))
    ∧ (truthy y = false →
      get_by_title_year db t y = db.movies.find? (fun m => m.title == t))
    ∧ (get_by_title_year db t y = none ↔
      ∀ m ∈ db.movies, titleYearPred t y m = false) := by
  refine ⟨?_, ?_, ?_⟩
  · intro m hm
    have hp := List.find?_some hm
    cases hy : truthy y <;> simp [titleYearPred, hy] at hp
    · exact ⟨hp, by simp [hy]⟩
    · exact ⟨hp.1, fun _ => hp.2⟩
  · intro hy
    unfold get_by_title_year
    congr 1
    funext m
    simp [titleYearPred, hy]
  · simp [get_by_title_year, List.find?_eq_none]

/-- C5 witness: on a one-row store the lookup returns the row with the
exact title and year, and with an empty year it degrades to a title-only
find. -/
theorem get_by_title_year_match_witness :
    (mDune.title = "Dune" ∧ (truthy (some "2021") = true → mDune.year = some "2021"))
    ∧ get_by_title_year dbDune "Dune" (some "") =
        dbDune.movies.find? (fun m => m.title == "Dune") :=
  ⟨(get_by_title_year_match dbDune "Dune" (some "2021")).1 mDune (by decide),
   (get_by_title_year_match dbDune "Dune" (some "")).2.1 (by decide)⟩

/-- C3: ensure_movie is the idempotent natural-key upsert: a found row is
returned with the store and every field untouched; otherwise exactly the
given fields make up a new row; running it twice with identical arguments
is the same as once, and from a state with no natural-key match the double
run leaves exactly one matching stored row. -/
theorem ensure_movie_idempotent_upsert (db : DB) (t : String)
    (y d : Option String) :
    (∀ m, get_by_title_year db t y = some m → ensure_movie db t y d = (db, m))
    ∧ (get_by_title_year db t y = none →
      ensure_movie db t y d =
        (⟨db.movies ++ [⟨db.nextId, t, y, d⟩], db.nextId + 1⟩,
          ⟨db.nextId, t, y, d⟩))
    ∧ ensure_movie (ensure_movie db t y d).1 t y d = ensure_movie db t y d
    ∧ (get_by_title_year db t y = none →
      ((ensure_movie (ensure_movie db t y d).1 t y d).1.movies.filter
        (titleYearPred t y)).length = 1) := by
  refine ⟨?_, ?_, ?_, ?_⟩
  · intro m hm
    simp [ensure_movie, hm]
  · intro h
    simp [ensure_movie, h, create_movie]
  · cases h : get_by_title_year db t y with
    | some m => simp [ensure_movie, h]
    | none =>
      have h2 := get_by_title_year_create db t y d h
      simp [create_movie] at h2
      simp [ensure_movie, h, h2, create_movie]
  · intro h
    have h2 := get_by_title_year_create db t y d h
    simp [create_movie] at h2
    have hnil : db.movies.filter (titleYearPred t y) = [] := by
      rw [List.filter_eq_nil_iff]
      intro a ha
      have := (List.find?_eq_none.mp h) a ha
      simpa using this
    simp [ensure_movie, h, h2, create_movie, List.filter_append, hnil,
      titleYearPred_self]

/-- C3 witness: with an empty store, ensure creates the row from its
arguments, a second identical call changes nothing, and exactly one
matching row is stored. -/
theorem ensure_movie_idempotent_upsert_witness :
    ensure_movie dbEmpty "Dune" (some "2021") (some "plot") =
      (⟨[⟨1, "Dune", some "2021", some "plot"⟩], 2⟩,
        ⟨1, "Dune", some "2021", some "plot"⟩)
    ∧ ensure_movie (ensure_movie dbEmpty "Dune" (some "2021") (some "plot")).1
        "Dune" (some "2021") (some "plot") =
      ensure_movie dbEmpty "Dune" (some "2021") (some "plot")
    ∧ ((ensure_movie (ensure_movie dbEmpty "Dune" (some "2021") (some "plot")).1
        "Dune" (some "2021") (some "plot")).1.movies.filter
          (titleYearPred "Dune" (some "2021"))).length = 1 :=
  ⟨(ensure_movie_idempotent_upsert dbEmpty "Dune" (some "2021")
       (some "plot")).2.1 (by decide),
   (ensure_movie_idempotent_upsert dbEmpty "Dune" (some "2021")
       (some "plot")).2.2.1,
   (ensure_movie_idempotent_upsert dbEmpty "Dune" (some "2021")
       (some "plot")).2.2.2 (by decide)⟩

/-- C4: update_movie answers not-found for an unknown id with the store
untouched; for a stored row it applies exactly the fields present in the
payload to that row — every omitted field, and the id, keeps its exact
pre-update value — rows with other ids stay stored, and the id counter is
untouched. -/
theorem update_movie_partial_fields (db : DB) (i : Nat) (u : MovieUpdate) :
    (get_movie db i = none → update_movie db i u = (db, none))
    ∧ (∀ m, get_movie db i = some m →
      (update_movie db i u).2 = some (applyUpdate m u)
      ∧ (applyUpdate m u).id = m.id
      ∧ (u.title = none → (applyUpdate m u).title = m.title)
      ∧ (u.year = none → (applyUpdate m u).year = m.year)
      ∧ (u.description = none → (applyUpdate m u).description = m.description)
      ∧ (∀ v, u.title = some v → (applyUpdate m u).title = v)
      ∧ (∀ v, u.year = some v → (applyUpdate m u).year = v)
      ∧ (∀ v, u.description = some v → (applyUpdate m u).description = v)
      ∧ (∀ x ∈ db.movies, x.id ≠ i → x ∈ (update_movie db i u).1.movies)
      ∧ (update_movie db i u).1.nextId = db.nextId) := by
  constructor
  · intro h
    simp [update_movie, h]
  · intro m hm
    refine ⟨by simp [update_movie, hm], by simp [applyUpdate],
      fun h => by simp [applyUpdate, h], fun h => by simp [applyUpdate, h],
      fun h => by simp [applyUpdate, h], fun v h => by simp [applyUpdate, h],
      fun v h => by simp [applyUpdate, h], fun v h => by simp [applyUpdate, h],
      ?_, by simp [update_movie, hm]⟩
    intro x hx hxi
    simp [update_movie, hm]
    refine ⟨x, hx, ?_⟩
    simp [hxi]

/-- C4 witness: updating the sample row's description alone keeps title,
year and id, and a missing id changes nothing. -/
theorem update_movie_partial_fields_witness :
    (update_movie dbDune 7 ⟨none, none, some (some "plot")⟩ = (dbDune, none))
    ∧ (update_movie dbDune 1 ⟨none, none, some (some "plot")⟩).2 =
        some (applyUpdate mDune ⟨none, none, some (some "plot")⟩)
    ∧ (applyUpdate mDune ⟨none, none, some (some "plot")⟩).title = mDune.title
    ∧ (applyUpdate mDune ⟨none, none, some (some "plot")⟩).year = mDune.year
    ∧ (applyUpdate mDune ⟨none, none, some (some "plot")⟩).description =
        some "plot" :=
  ⟨(update_movie_partial_fields dbDune 7 ⟨none, none, some (some "plot")⟩).1
      (by decide),
   ((update_movie_partial_fields dbDune 1 ⟨none, none, some (some "plot")⟩).2
      mDune (by decide)).1,
   ((update_movie_partial_fields dbDune 1 ⟨none, none, some (some "plot")⟩).2
      mDune (by decide)).2.2.1 rfl,
   ((update_movie_partial_fields dbDune 1 ⟨none, none, some (some "plot")⟩).2
      mDune (by decide)).2.2.2.1 rfl,
   ((update_movie_partial_fields dbDune 1 ⟨none, none, some (some "plot")⟩).2
      mDune (by decide)).2.2.2.2.2.2.2.1 (some "plot") rfl⟩

/-- C1 counterexample: with the payload (title "Dune", year "", description
"desc") neither field is absent, yet the provider lookup is invoked, and the
payload-supplied empty-string year is overwritten by the provider's year in
the created record — refuting the claimed "invoked if and only if a field
is absent" and "a supplied field value is never overwritten". -/
theorem enrichment_lookup_not_only_on_absent :
    (create_movie_endpoint lookupDune dbEmpty
        ⟨"Dune", some "", some "desc"⟩).lookupCalled = true
    ∧ ¬((some "" : Option String) = none ∨ (some "desc" : Option String) = none)
    ∧ (create_movie_endpoint lookupDune dbEmpty
        ⟨"Dune", some "", some "desc"⟩).response =
      .created ⟨1, "Dune", some "2021", some "desc"⟩
    ∧ (some "2021" : Option String) ≠ some "" := by
  decide

/-- C1 amended: the provider lookup is invoked if and only if the payload's
year is absent or empty, or its description is absent or empty; a non-empty
payload value is always kept, a provider value is used exactly when the
corresponding payload field was absent or empty, and the created record
carries the payload title with the enriched year and description. -/
theorem enrichment_respects_nonempty_payload
    (lookup : String → Option OmdbData) (db : DB) (p : MovieCreate) :
    ((create_movie_endpoint lookup db p).lookupCalled =
      (!truthy p.year || !truthy p.description))
    ∧ (truthy p.year = true → (enrich lookup p).1 = p.year)
    ∧ (truthy p.description = true → (enrich lookup p).2 = p.description)
    ∧ (∀ o, lookup p.title = some o → truthy p.year = false →
      (enrich lookup p).1 = o.year)
    ∧ (∀ o, lookup p.title = some o → truthy p.description = false →
      (enrich lookup p).2 = o.description)
    ∧ (∀ m, (create_movie_endpoint lookup db p).response = .created m →
      m.title = p.title ∧ m.year = (enrich lookup p).1
        ∧ m.description = (enrich lookup p).2) := by
  refine ⟨?_, ?_, ?_, ?_, ?_, ?_⟩
  · cases h : get_by_title_year db p.title (enrich lookup p).1 <;>
      simp [create_movie_endpoint, h]
  · intro hy
    cases hd : truthy p.description <;>
      cases hl : lookup p.title <;>
      simp [enrich, hy, hd, hl, pyOr]
  · intro hd
    cases hy : truthy p.year <;>
      cases hl : lookup p.title <;>
      simp [enrich, hy, hd, hl, pyOr]
  · intro o hl hy
    simp [enrich, hy, hl, pyOr]
  · intro o hl hd
    cases hy : truthy p.year <;> simp [enrich, hy, hd, hl, pyOr]
  · intro m
    cases h : get_by_title_year db p.title (enrich lookup p).1 with
    | some x => simp [create_movie_endpoint, h]
    | none =>
      simp only [create_movie_endpoint, create_movie, h]
      intro hm
      cases hm
      simp

/-- C1 witness: a payload with year and description both supplied non-empty
triggers no lookup; a payload missing both gets the provider's values. -/
theorem enrichment_respects_nonempty_payload_witness :
    ((create_movie_endpoint lookupDune dbEmpty
        ⟨"Dune", some "2021", some "desc"⟩).lookupCalled = false)
    ∧ (enrich lookupDune ⟨"Dune", some "2021", none⟩).1 = some "2021"
    ∧ (enrich lookupDune ⟨"Dune", none, none⟩).1 = some "2021" :=
  ⟨by
    have h := (enrichment_respects_nonempty_payload lookupDune dbEmpty
      ⟨"Dune", some "2021", some "desc"⟩).1
    rw [h]
    decide,
   (enrichment_respects_nonempty_payload lookupDune dbEmpty
      ⟨"Dune", some "2021", none⟩).2.1 (by decide),
   (enrichment_respects_nonempty_payload lookupDune dbEmpty
      ⟨"Dune", none, none⟩).2.2.2.1 ⟨"Dune", some "2021", some "plot"⟩
      rfl (by decide)⟩

/-- C2: after enrichment, a natural-key match on the final title and year
makes the create endpoint answer 409 with the store — and so the existing
record — completely unchanged; with no match it appends exactly one new
record built from the enriched payload and returns it with 201. -/
theorem create_conflict_or_insert (lookup : String → Option OmdbData)
    (db : DB) (p : MovieCreate) :
    (∀ m, get_by_title_year db p.title (enrich lookup p).1 = some m →
      create_movie_endpoint lookup db p =
        ⟨db, .conflict, !truthy p.year || !truthy p.description⟩)
    ∧ (get_by_title_year db p.title (enrich lookup p).1 = none →
      create_movie_endpoint lookup db p =
        ⟨⟨db.movies ++
            [⟨db.nextId, p.title, (enrich lookup p).1, (enrich lookup p).2⟩],
            db.nextId + 1⟩,
          .created ⟨db.nextId, p.title, (enrich lookup p).1,
            (enrich lookup p).2⟩,
          !truthy p.year || !truthy p.description⟩) := by
  constructor
  · intro m hm
    simp [create_movie_endpoint, hm]
  · intro h
    simp [create_movie_endpoint, h, create_movie]

/-- C2 witness: creating "Dune" (2021) in a store already holding it
yields 409 and leaves the store unchanged; creating it in the empty store
yields 201 with the new record. -/
theorem create_conflict_or_insert_witness :
    create_movie_endpoint lookupDune dbDune ⟨"Dune", some "2021", some "d"⟩ =
      ⟨dbDune, .conflict, false⟩
    ∧ create_movie_endpoint lookupDune dbEmpty
        ⟨"Dune", some "2021", some "d"⟩ =
      ⟨⟨[⟨1, "Dune", some "2021", some "d"⟩], 2⟩,
        .created ⟨1, "Dune", some "2021", some "d"⟩, false⟩ := by
  constructor
  · have h := (create_conflict_or_insert lookupDune dbDune
      ⟨"Dune", some "2021", some "d"⟩).1 mDune (by decide)
    rw [h]
    decide
  · have h := (create_conflict_or_insert lookupDune dbEmpty
      ⟨"Dune", some "2021", some "d"⟩).2 (by decide)
    rw [h]
    decide

/-- An explicitly supplied empty string is falsy, exactly like an absent
value. -/
lemma truthy_empty : truthy (some "") = false := rfl

/-- C10: an empty-string year or description in the creation payload is
handled exactly like an absent one — it triggers the provider lookup, the
provider's value replaces the submitted empty string when the lookup
returns data, and an empty-string year makes the natural-key pre-check
match on title alone. -/
theorem empty_string_treated_as_absent (lookup : String → Option OmdbData)
    (db : DB) (p : MovieCreate) (t : String) :
    (p.year = some "" →
      (create_movie_endpoint lookup db p).lookupCalled = true)
    ∧ (p.description = some "" →
      (create_movie_endpoint lookup db p).lookupCalled = true)
    ∧ (∀ o, p.year = some "" → lookup p.title = some o →
      (enrich lookup p).1 = o.year)
    ∧ (∀ o, p.description = some "" → lookup p.title = some o →
      (enrich lookup p).2 = o.description)
    ∧ get_by_title_year db t (some "") =
        db.movies.find? (fun m => m.title == t) := by
  refine ⟨?_, ?_, ?_, ?_, ?_⟩
  · intro hy
    cases h : get_by_title_year db p.title (enrich lookup p).1 <;>
      simp [create_movie_endpoint, h, hy, truthy_empty]
  · intro hd
    cases h : get_by_title_year db p.title (enrich lookup p).1 <;>
      simp [create_movie_endpoint, h, hd, truthy_empty]
  · intro o hy hl
    simp [enrich, hy, hl, pyOr, truthy_empty]
  · intro o hd hl
    cases hy : truthy p.year <;>
      simp [enrich, hy, hd, hl, pyOr, truthy_empty]
  · rfl

/-- C10 witness: with year "" supplied, the lookup runs and the provider's
year replaces the empty string; an empty-string year argument makes the
natural-key lookup match on title alone. -/
theorem empty_string_treated_as_absent_witness :
    (create_movie_endpoint lookupDune dbEmpty
        ⟨"Dune", some "", some "d"⟩).lookupCalled = true
    ∧ (enrich lookupDune ⟨"Dune", some "", some "d"⟩).1 = some "2021"
    ∧ get_by_title_year dbDune "Dune" (some "") =
        dbDune.movies.find? (fun m => m.title == "Dune") :=
  ⟨(empty_string_treated_as_absent lookupDune dbEmpty
      ⟨"Dune", some "", some "d"⟩ "Dune").1 rfl,
   (empty_string_treated_as_absent lookupDune dbEmpty
      ⟨"Dune", some "", some "d"⟩ "Dune").2.2.1
      ⟨"Dune", some "2021", some "plot"⟩ rfl rfl,
   (empty_string_treated_as_absent lookupDune dbDune
      ⟨"Dune", some "", some "d"⟩ "Dune").2.2.2.2⟩

/-- C9 counterexample: a request with limit 150 on a one-row store is
rejected by the boundary with a validation error; it does not proceed as
if the limit were 100, refuting the claimed clamping. -/
theorem limit_over_100_not_clamped :
    list_movies_endpoint dbDune 0 (some 150) = .validationError
    ∧ list_movies_endpoint dbDune 0 (some 150) ≠
        .ok (get_movies dbDune 0 100) := by
  decide

/-- C9 amended: a supplied limit greater than 100 is rejected at the
boundary with a validation error, so the listing never runs with a limit
above 100; a limit within the bound is honoured and an absent limit
defaults to 50. -/
theorem limit_over_100_rejected (db : DB) (skip : Nat) (l : Int) :
    (100 < l → list_movies_endpoint db skip (some l) = .validationError)
    ∧ (l ≤ 100 →
      list_movies_endpoint db skip (some l) = .ok (get_movies db skip l.toNat))
    ∧ list_movies_endpoint db skip none = .ok (get_movies db skip 50) := by
  refine ⟨?_, ?_, rfl⟩
  · intro h
    simp [list_movies_endpoint, not_le.mpr h]
  · intro h
    simp [list_movies_endpoint, h]

/-- C9 amended witness: limit 150 is rejected, limit 2 is honoured. -/
theorem limit_over_100_rejected_witness :
    list_movies_endpoint dbDune 3 (some 150) = .validationError
    ∧ list_movies_endpoint dbDune 0 (some 2) =
        .ok (get_movies dbDune 0 (Int.toNat 2)) :=
  ⟨(limit_over_100_rejected dbDune 3 150).1 (by decide),
   (limit_over_100_rejected dbDune 0 2).2.1 (by decide)⟩

/-- C8: the keyword-search client returns an empty list at once when the
API key is unconfigured; with a key, a transport failure propagates to the
caller uncaught, a body whose discriminator is not "True" gives an empty
list, and a success body gives the titles of the first `limit` entries
skipping those whose title is absent or empty — so never more than
`limit` titles. -/
theorem fetch_monitor_movies_spec (apiKey : String)
    (resp : Except Err SearchResponse) (limit : Nat) :
    (apiKey.isEmpty = true → fetch_monitor_movies apiKey resp limit = .ok [])
    ∧ (∀ e, apiKey.isEmpty = false → resp = .error e →
      fetch_monitor_movies apiKey resp limit = .error e)
    ∧ (∀ data, apiKey.isEmpty = false → resp = .ok data →
      data.responseField ≠ "True" →
      fetch_monitor_movies apiKey resp limit = .ok [])
    ∧ (∀ data, apiKey.isEmpty = false → resp = .ok data →
      data.responseField = "True" →
      fetch_monitor_movies apiKey resp limit =
        .ok ((data.search.take limit).filterMap
          (fun it => if truthy it.title then it.title else none)))
    ∧ (∀ l, fetch_monitor_movies apiKey resp limit = .ok l →
      l.length ≤ limit) := by
  refine ⟨?_, ?_, ?_, ?_, ?_⟩
  · intro h
    simp [fetch_monitor_movies, h]
  · intro e hk hr
    simp [fetch_monitor_movies, hk, hr]
  · intro data hk hr hd
    simp [fetch_monitor_movies, hk, hr, hd]
  · intro data hk hr hd
    simp [fetch_monitor_movies, hk, hr, hd]
  · intro l hl
    cases hk : apiKey.isEmpty with
    | true =>
      simp [fetch_monitor_movies, hk] at hl
      subst hl
      simp
    | false =>
      cases hr : resp with
      | error e => simp [fetch_monitor_movies, hk, hr] at hl
      | ok data =>
        cases hd : (data.responseField == "True") with
        | false =>
          simp [fetch_monitor_movies, hk, hr, hd] at hl
          subst hl
          simp
        | true =>
          simp [fetch_monitor_movies, hk, hr, hd] at hl
          calc l.length ≤ (data.search.take limit).length := by
                rw [← hl]
                exact List.length_filterMap_le _ _
            _ ≤ limit := List.length_take_le _ _

/-- C8 witness: with a configured key and a success body of three entries
(one of them untitled, one with an empty title), limit 2 keeps only the
titled entry among the first two; an unconfigured key gives []; a
transport failure propagates. -/
theorem fetch_monitor_movies_spec_witness :
    fetch_monitor_movies "key"
      (.ok ⟨"True", [⟨none⟩, ⟨some "Monitor"⟩, ⟨some "Other"⟩]⟩) 2 =
      .ok ((([⟨none⟩, ⟨some "Monitor"⟩, ⟨some "Other"⟩] :
        List SearchItem).take 2).filterMap
          (fun it => if truthy it.title then it.title else none))
    ∧ fetch_monitor_movies ""
        (.ok ⟨"True", [⟨some "Monitor"⟩]⟩) 2 = .ok []
    ∧ fetch_monitor_movies "key" (.error "timeout") 2 = .error "timeout" :=
  ⟨(fetch_monitor_movies_spec "key"
      (.ok ⟨"True", [⟨none⟩, ⟨some "Monitor"⟩, ⟨some "Other"⟩]⟩) 2).2.2.2.1
      ⟨"True", [⟨none⟩, ⟨some "Monitor"⟩, ⟨some "Other"⟩]⟩ (by decide) rfl rfl,
   (fetch_monitor_movies_spec ""
      (.ok ⟨"True", [⟨some "Monitor"⟩]⟩) 2).1 (by decide),
   (fetch_monitor_movies_spec "key" (.error "timeout") 2).2.1 "timeout"
      (by decide) rfl⟩

/-- C6: when the count call succeeds with at least 10 stored records, the
seeding routine stops at once — its try-block ends with no provider call,
no error, and the store exactly as it was, and the hook returns that
unchanged store. -/
theorem seed_skips_when_count_at_least_ten
    (searchRes : Except Err (List String))
    (lookup : String → Except Err (Option OmdbData))
    (ensureErr : String → Option Err) (db : DB)
    (h : 10 ≤ count_movies db) :
    seedRun none searchRes lookup ensureErr db = ⟨db, none, 0⟩
    ∧ seed_movies_if_less_than_10 none searchRes lookup ensureErr db = db := by
  constructor
  · simp [seedRun, h]
  · simp [seed_movies_if_less_than_10, seedRun, h]

/-- C6 witness: on a ten-row store the routine makes zero provider calls
and zero writes. -/
theorem seed_skips_when_count_at_least_ten_witness :
    seedRun none (.ok ["a"]) wLookup (fun _ => none) dbTen =
      ⟨dbTen, none, 0⟩
    ∧ seed_movies_if_less_than_10 none (.ok ["a"]) wLookup
        (fun _ => none) dbTen = dbTen :=
  seed_skips_when_count_at_least_ten (.ok ["a"]) wLookup (fun _ => none)
    dbTen (by decide)

/-- ensure_movie only ever appends to the store. -/
lemma ensure_movie_append (db : DB) (t : String) (y d : Option String) :
    ∃ tail, (ensure_movie db t y d).1.movies = db.movies ++ tail := by
  cases h : get_by_title_year db t y with
  | some m => exact ⟨[], by simp [ensure_movie, h]⟩
  | none =>
    exact ⟨[⟨db.nextId, t, y, d⟩], by simp [ensure_movie, h, create_movie]⟩

/-- The per-title loop only ever appends to the store, whether or not it
ends in a raise. -/
lemma seedLoop_no_rollback (lookup : String → Except Err (Option OmdbData))
    (ensureErr : String → Option Err) :
    ∀ (titles : List String) (db : DB),
      ∃ tail, (seedLoop lookup ensureErr db titles).db.movies =
        db.movies ++ tail := by
  intro titles
  induction titles with
  | nil => exact fun db => ⟨[], by simp [seedLoop]⟩
  | cons t ts ih =>
    intro db
    cases hl : lookup t with
    | error e => exact ⟨[], by simp [seedLoop, hl]⟩
    | ok o =>
      cases o with
      | none =>
        obtain ⟨tail, htail⟩ := ih db
        exact ⟨tail, by simp [seedLoop, hl, htail]⟩
      | some o =>
        cases he : ensureErr t with
        | some e => exact ⟨[], by simp [seedLoop, hl, he]⟩
        | none =>
          obtain ⟨t1, h1⟩ :=
            ensure_movie_append db o.title o.year o.description
          obtain ⟨t2, h2⟩ := ih (ensure_movie db o.title o.year o.description).1
          exact ⟨t1 ++ t2, by
            simp [seedLoop, hl, he, h2, h1, List.append_assoc]⟩

/-- Processing a prefix of titles on which every lookup answers purely and
no ensure raises advances the loop to the failure-free state for that
prefix, adding one provider call per prefix title. -/
lemma seedLoop_prefix (lookup : String → Except Err (Option OmdbData))
    (ensureErr : String → Option Err) (lookupV : String → Option OmdbData) :
    ∀ (pre : List String),
      (∀ s ∈ pre, lookup s = .ok (lookupV s) ∧ ensureErr s = none) →
      ∀ (db : DB) (l : List String),
        seedLoop lookup ensureErr db (pre ++ l) =
          ⟨(seedLoop lookup ensureErr (seedLoopOk lookupV db pre) l).db,
            (seedLoop lookup ensureErr (seedLoopOk lookupV db pre) l).err,
            (seedLoop lookup ensureErr (seedLoopOk lookupV db pre) l).providerCalls
              + pre.length⟩ := by
  intro pre
  induction pre with
  | nil => intro _ db l; rfl
  | cons t pre ih =>
    intro h db l
    have ht := h t (by simp)
    have hpre : ∀ s ∈ pre, lookup s = .ok (lookupV s) ∧ ensureErr s = none :=
      fun s hs => h s (by simp [hs])
    cases hv : lookupV t with
    | none =>
      have hl : lookup t = .ok none := by rw [ht.1, hv]
      simp [List.cons_append, seedLoop, hl, seedLoopOk, hv, ih hpre db l,
        Nat.add_assoc]
    | some o =>
      have hl : lookup t = .ok (some o) := by rw [ht.1, hv]
      simp [List.cons_append, seedLoop, hl, ht.2, seedLoopOk, hv,
        ih hpre (ensure_movie db o.title o.year o.description).1 l,
        Nat.add_assoc]

/-- C7: every exception arising inside the seeding routine is caught at
its top level and swallowed: whatever the oracles for count, search,
per-title lookup and ensure do, the hook returns a store that extends the
initial one (nothing is ever rolled back); a count or search failure
leaves the store untouched; a lookup or ensure failure on a title after a
cleanly processed prefix leaves exactly the records committed for that
prefix, with the raised exception recorded by the try-block and absent
from the hook's result. -/
theorem seed_swallows_all_exceptions (countErr : Option Err)
    (searchRes : Except Err (List String))
    (lookup : String → Except Err (Option OmdbData))
    (ensureErr : String → Option Err) (db : DB)
    (lookupV : String → Option OmdbData) (pre rest : List String)
    (t : String) (e : Err) :
    (∃ tail,
      (seed_movies_if_less_than_10 countErr searchRes lookup ensureErr
        db).movies = db.movies ++ tail)
    ∧ (countErr = some e →
      seed_movies_if_less_than_10 countErr searchRes lookup ensureErr db = db
      ∧ (seedRun countErr searchRes lookup ensureErr db).err = some e)
    ∧ (countErr = none → count_movies db < 10 → searchRes = .error e →
      seed_movies_if_less_than_10 countErr searchRes lookup ensureErr db = db
      ∧ (seedRun countErr searchRes lookup ensureErr db).err = some e)
    ∧ (countErr = none → count_movies db < 10 →
      searchRes = .ok (pre ++ t :: rest) →
      (∀ s ∈ pre, lookup s = .ok (lookupV s) ∧ ensureErr s = none) →
      lookup t = .error e →
      seed_movies_if_less_than_10 countErr searchRes lookup ensureErr db =
        seedLoopOk lookupV db pre
      ∧ (seedRun countErr searchRes lookup ensureErr db).err = some e)
    ∧ (∀ o, countErr = none → count_movies db < 10 →
      searchRes = .ok (pre ++ t :: rest) →
      (∀ s ∈ pre, lookup s = .ok (lookupV s) ∧ ensureErr s = none) →
      lookup t = .ok (some o) → ensureErr t = some e →
      seed_movies_if_less_than_10 countErr searchRes lookup ensureErr db =
        seedLoopOk lookupV db pre
      ∧ (seedRun countErr searchRes lookup ensureErr db).err = some e) := by
  refine ⟨?_, ?_, ?_, ?_, ?_⟩
  · cases hc : countErr with
    | some e0 => exact ⟨[], by simp [seed_movies_if_less_than_10, seedRun, hc]⟩
    | none =>
      by_cases h10 : 10 ≤ count_movies db
      · exact ⟨[], by simp [seed_movies_if_less_than_10, seedRun, hc, h10]⟩
      · cases hs : searchRes with
        | error e0 =>
          exact ⟨[], by simp [seed_movies_if_less_than_10, seedRun, hc, h10, hs]⟩
        | ok titles =>
          obtain ⟨tail, htail⟩ := seedLoop_no_rollback lookup ensureErr titles db
          exact ⟨tail, by
            simp [seed_movies_if_less_than_10, seedRun, hc, h10, hs, htail]⟩
  · intro hc
    constructor <;> simp [seed_movies_if_less_than_10, seedRun, hc]
  · intro hc h10 hs
    constructor <;>
      simp [seed_movies_if_less_than_10, seedRun, hc, hs, Nat.not_le.mpr h10]
  · intro hc h10 hs hpre hl
    have hloop := seedLoop_prefix lookup ensureErr lookupV pre hpre db (t :: rest)
    constructor <;>
      simp [seed_movies_if_less_than_10, seedRun, hc, hs, Nat.not_le.mpr h10,
        hloop, seedLoop, hl]
  · intro o hc h10 hs hpre hl he
    have hloop := seedLoop_prefix lookup ensureErr lookupV pre hpre db (t :: rest)
    constructor <;>
      simp [seed_movies_if_less_than_10, seedRun, hc, hs, Nat.not_le.mpr h10,
        hloop, seedLoop, hl, he]

/-- C7 witness: seeding over titles a, b, c where b's lookup raises keeps
the record committed for a and swallows the exception; a failing count
call leaves the store untouched and is swallowed as well. -/
theorem seed_swallows_all_exceptions_witness :
    (seed_movies_if_less_than_10 none (.ok ["a", "b", "c"]) wLookup
        (fun _ => none) dbEmpty = seedLoopOk wLookupV dbEmpty ["a"]
      ∧ (seedRun none (.ok ["a", "b", "c"]) wLookup
          (fun _ => none) dbEmpty).err = some "boom")
    ∧ (seed_movies_if_less_than_10 (some "down") (.ok []) wLookup
        (fun _ => none) dbEmpty = dbEmpty
      ∧ (seedRun (some "down") (.ok []) wLookup
          (fun _ => none) dbEmpty).err = some "down") :=
  ⟨(seed_swallows_all_exceptions none (.ok ["a", "b", "c"]) wLookup
      (fun _ => none) dbEmpty wLookupV ["a"] ["c"] "b" "boom").2.2.2.1
      rfl (by decide) rfl
      (by
        intro s hs
        simp at hs
        subst hs
        exact ⟨rfl, rfl⟩)
      rfl,
   (seed_swallows_all_exceptions (some "down") (.ok []) wLookup
      (fun _ => none) dbEmpty wLookupV [] [] "x" "down").2.1 rfl⟩

end FilmService
